import Mathlib

/-!
Verification of the market-data interface contracts of
`tf_quant_finance/experimental/pricing_platform/framework/processed_market_data.py`.

The file under review declares two abstract base classes, `RateCurve` and
`ProcessedMarketData`, with no concrete implementation in the repository
sources available here.  The contracts the spec states for "every
implementation" are therefore settled against reference implementations
modelled from the spec's own words (each such definition carries a doc
comment starting with `Modelled from the spec:`).  The base-class bodies
themselves (the `pass` bodies, the `raise NotImplementedError` bodies and
the `return self._dates` body) are embedded directly from the source.

Numeric values are modelled as exact rationals, so every identity the spec
requires "to floating-point tolerance" is proved exactly.  Dates are
modelled as day ordinals (natural numbers).
-/

/-- Error taxonomy of the spec: lookup, validation, temporal,
not-implemented and attribute errors. -/
inductive MarketDataError where
  | validationError (arg : String)
  | lookupError (key : String)
  | temporalError
  | notImplementedError
  | attributeError (name : String)
deriving DecidableEq, Repr

/-- Modelled from the spec: a `RateCurve` conceptually holds, at
interpolation nodes, dates paired with discount factors, plus a day-count
convention, an interpolation-method tag, a curve-type identity tag and a
valuation date.  The concrete curve classes are absent from the sources, so
this structure realises the data model of section 3 of the spec. -/
structure RateCurve where
  curve_type : Nat
  valuation_date : Nat
  node_dates : List Nat
  discount_factor_nodes : List ℚ
  daycount_tag : Nat
  interp_tag : Nat
  dc_basis : ℚ
deriving DecidableEq, Repr

namespace RateCurve

/-- Modelled from the spec: `daycount_fn` returns the callable computing
year-fractions between two dates under the curve's convention. -/
def daycount_fn (c : RateCurve) (d1 d2 : Nat) : ℚ :=
  ((d2 : ℚ) - (d1 : ℚ)) / c.dc_basis

/-- Modelled from the spec: linear interpolation over the sorted
`(date, value)` node segments; a date outside the node range fails with a
validation error naming the offending argument (no silent clamping). -/
def interpSegments : List (Nat × ℚ) → Nat → Except MarketDataError ℚ
  | [], _ => .error (.validationError "date")
  | [(d1, v1)], d =>
      if d = d1 then .ok v1 else .error (.validationError "date")
  | (d1, v1) :: (d2, v2) :: rest, d =>
      if d < d1 then .error (.validationError "date")
      else if d ≤ d2 then
        .ok (v1 + (v2 - v1) * (((d : ℚ) - (d1 : ℚ)) / ((d2 : ℚ) - (d1 : ℚ))))
      else interpSegments ((d2, v2) :: rest) d

/-- Modelled from the spec: `discount_factor(date)` evaluates the curve at
the requested date, interpolating between nodes, failing with a validation
error outside the curve's supported range. -/
def discount_factor (c : RateCurve) (date : Nat) : Except MarketDataError ℚ :=
  interpSegments (c.node_dates.zip c.discount_factor_nodes) date

/-- Modelled from the spec: the simply-compounded forward rate implied by
the curve between two dates, computed from the interpolated discount
factors and the curve's day-count basis. -/
def forward_rate (c : RateCurve) (start_date end_date : Nat) :
    Except MarketDataError ℚ :=
  match c.discount_factor start_date with
  | .error e => .error e
  | .ok v1 =>
    match c.discount_factor end_date with
    | .error e => .error e
    | .ok v2 =>
      .ok ((v1 - v2) * c.dc_basis / (v2 * ((end_date : ℚ) - (start_date : ℚ))))

/-- Modelled from the spec: the zero-coupon (simply-compounded) rate
equivalent to `discount_factor(date)` under the curve's convention. -/
def discount_rate (c : RateCurve) (date : Nat) : Except MarketDataError ℚ :=
  match c.discount_factor date with
  | .error e => .error e
  | .ok v => .ok ((1 / v - 1) / c.daycount_fn c.valuation_date date)

/-- Modelled from the spec: node discount rates derived from the node
discount factors under the curve's convention. -/
def discount_rate_nodes (c : RateCurve) : List ℚ :=
  (c.node_dates.zip c.discount_factor_nodes).map
    (fun p => (1 / p.2 - 1) / c.daycount_fn c.valuation_date p.1)

/-- Modelled from the spec: the paired (values, dates) the curve was
fitted to. -/
def discount_factors_and_dates (c : RateCurve) : List ℚ × List Nat :=
  (c.discount_factor_nodes, c.node_dates)

/-- Modelled from the spec: `set_discount_factor_nodes(values)` updates the
node discount factors, rejecting with a shape/validation error any `values`
whose length differs from the `node_dates` length, and returns the updated
node array together with the updated curve. -/
def set_discount_factor_nodes (c : RateCurve) (values : List ℚ) :
    Except MarketDataError (RateCurve × List ℚ) :=
  if values.length = c.node_dates.length then
    .ok ({ c with discount_factor_nodes := values }, values)
  else .error (.validationError "values")

end RateCurve

/-- A concrete curve used by witnesses: the spec's section-8 scenario
(valuation 2021-01-04, nodes at 2021-06-04 and 2022-01-04 with discount
factors 0.999 and 0.995), with dates as day offsets from the valuation
date. -/
def sampleCurve : RateCurve :=
  { curve_type := 0
    valuation_date := 0
    node_dates := [0, 151, 365]
    discount_factor_nodes := [1, 999/1000, 995/1000]
    daycount_tag := 0
    interp_tag := 0
    dc_basis := 365 }

/-- C2: with mismatched lengths `set_discount_factor_nodes` fails with a
validation error; with matching lengths the updated curve's
`discount_factor_nodes` equals the given values and the call returns that
updated node array. -/
theorem set_discount_factor_nodes_contract (c : RateCurve) (v : List ℚ) :
    (v.length ≠ c.node_dates.length →
      c.set_discount_factor_nodes v = .error (.validationError "values")) ∧
    (v.length = c.node_dates.length →
      ∃ c2, c.set_discount_factor_nodes v = .ok (c2, v) ∧
        c2.discount_factor_nodes = v) := by
  constructor
  · intro h
    simp [RateCurve.set_discount_factor_nodes, h]
  · intro h
    refine ⟨{ c with discount_factor_nodes := v }, ?_, rfl⟩
    simp [RateCurve.set_discount_factor_nodes, h]

/-- Witness for C2 at a concrete curve and concrete values of both
matching and mismatching length. -/
theorem set_discount_factor_nodes_contract_witness :
    sampleCurve.set_discount_factor_nodes [1, 1] =
      .error (.validationError "values") ∧
    ∃ c2, sampleCurve.set_discount_factor_nodes [1, 98/100, 96/100] =
      .ok (c2, [1, 98/100, 96/100]) ∧
      c2.discount_factor_nodes = [1, 98/100, 96/100] :=
  ⟨(set_discount_factor_nodes_contract sampleCurve [1, 1]).1 (by decide),
   (set_discount_factor_nodes_contract sampleCurve
      [1, 98/100, 96/100]).2 (by decide)⟩

/-- C1: for valid dates `d1 < d2` on the curve, the returned forward rate
equals `(discount_factor(d1)/discount_factor(d2) - 1) / year_fraction(d1, d2)`
with the year fraction computed by the curve's own day-count function. -/
theorem forward_rate_identity (c : RateCurve) (d1 d2 : Nat) (v1 v2 : ℚ)
    (h1 : c.discount_factor d1 = .ok v1)
    (h2 : c.discount_factor d2 = .ok v2)
    (hv : v2 ≠ 0) (hd : d1 < d2) (hb : c.dc_basis ≠ 0) :
    c.forward_rate d1 d2 = .ok ((v1 / v2 - 1) / c.daycount_fn d1 d2) := by
  have hdq : (d1 : ℚ) < (d2 : ℚ) := by exact_mod_cast hd
  have hne : (d2 : ℚ) - (d1 : ℚ) ≠ 0 := sub_ne_zero.mpr (ne_of_gt hdq)
  unfold RateCurve.forward_rate
  rw [h1, h2]
  unfold RateCurve.daycount_fn
  field_simp

/-- Witness for C1: the spec's scenario curve at the two node dates. -/
theorem forward_rate_identity_witness :
    sampleCurve.forward_rate 151 365 =
      .ok ((999/1000 / (199/200) - 1) / sampleCurve.daycount_fn 151 365) :=
  forward_rate_identity sampleCurve 151 365 (999/1000) (199/200)
    (by norm_num [sampleCurve, RateCurve.discount_factor,
      RateCurve.interpSegments])
    (by norm_num [sampleCurve, RateCurve.discount_factor,
      RateCurve.interpSegments])
    (by norm_num) (by decide) (by norm_num [sampleCurve])

/-- C4: `discount_rate(d)` and `discount_factor(d)` are mutually
invertible under the curve's (simple-compounding) convention: the rate is
obtained from the factor, and the factor is reconstructed exactly from the
rate. -/
theorem discount_rate_round_trip (c : RateCurve) (d : Nat) (v : ℚ)
    (h : c.discount_factor d = .ok v) (hv : v ≠ 0)
    (hd : c.valuation_date < d) (hb : c.dc_basis ≠ 0) :
    ∃ r, c.discount_rate d = .ok r ∧
      1 / (1 + r * c.daycount_fn c.valuation_date d) = v := by
  have hdq : (c.valuation_date : ℚ) < (d : ℚ) := by exact_mod_cast hd
  have hne : (d : ℚ) - (c.valuation_date : ℚ) ≠ 0 :=
    sub_ne_zero.mpr (ne_of_gt hdq)
  have hyf : c.daycount_fn c.valuation_date d ≠ 0 :=
    div_ne_zero hne hb
  refine ⟨(1 / v - 1) / c.daycount_fn c.valuation_date d, ?_, ?_⟩
  · unfold RateCurve.discount_rate
    rw [h]
  · rw [div_mul_cancel₀ _ hyf]
    have : (1 : ℚ) + (1 / v - 1) = 1 / v := by ring
    rw [this, one_div_one_div]

/-- Witness for C4: the spec's scenario curve at the final node date. -/
theorem discount_rate_round_trip_witness :
    ∃ r, sampleCurve.discount_rate 365 = .ok r ∧
      1 / (1 + r * sampleCurve.daycount_fn sampleCurve.valuation_date 365) =
        199/200 :=
  discount_rate_round_trip sampleCurve 365 (199/200)
    (by norm_num [sampleCurve, RateCurve.discount_factor,
      RateCurve.interpSegments])
    (by norm_num) (by decide) (by norm_num [sampleCurve])

/-- Modelled from the spec: a `ProcessedMarketData` snapshot keyed by a
fixed `(date, time)` pair, aggregating a mapping from curve-type to curve,
per-asset spot series, volatility surfaces and forward curves, fixing
series keyed by (fixing type, tenor), the supported currency set and a
numeric-precision tag. -/
structure ProcessedMarketData where
  pmd_date : Nat
  pmd_time : Nat
  curves : List (Nat × RateCurve)
  spots : List (String × List (Nat × ℚ))
  vol_surfaces : List (String × ℚ)
  fwd_curves : List (String × RateCurve)
  fixing_series : List ((String × Nat) × List (Nat × ℚ))
  supported_currencies : List String
  dtype_tag : Nat

namespace ProcessedMarketData

/-- Modelled from the spec: resolve the curve matching the given type,
failing with a lookup error if no curve of that type is configured. -/
def yield_curve (p : ProcessedMarketData) (ct : Nat) :
    Except MarketDataError RateCurve :=
  match p.curves.lookup ct with
  | some c => .ok c
  | none => .error (.lookupError "curve_type")

/-- Modelled from the spec: historical fixings; a date strictly after the
snapshot's valuation date fails with a temporal error, an unknown fixing
series fails with a lookup error. -/
def fixings (p : ProcessedMarketData) (d : Nat) (ft : String) (tn : Nat) :
    Except MarketDataError ℚ :=
  if p.pmd_date < d then .error .temporalError
  else
    match p.fixing_series.lookup (ft, tn) with
    | none => .error (.lookupError "fixing_type")
    | some s =>
      match s.lookup d with
      | none => .error (.lookupError "date")
      | some v => .ok v

/-- Modelled from the spec: spot price of an asset, failing with a lookup
error for unknown asset identifiers rather than returning a default. -/
def spot (p : ProcessedMarketData) (a : String) (d : Nat) :
    Except MarketDataError ℚ :=
  match p.spots.lookup a with
  | none => .error (.lookupError "asset")
  | some s =>
    match s.lookup d with
    | none => .error (.lookupError "date")
    | some v => .ok v

/-- Modelled from the spec: the volatility surface object of an asset
(kept opaque), failing with a lookup error for unknown assets. -/
def volatility_surface (p : ProcessedMarketData) (a : String) :
    Except MarketDataError ℚ :=
  match p.vol_surfaces.lookup a with
  | none => .error (.lookupError "asset")
  | some v => .ok v

/-- Modelled from the spec: the forward curve of an asset, failing with a
lookup error for unknown assets. -/
def forward_curve (p : ProcessedMarketData) (a : String) :
    Except MarketDataError RateCurve :=
  match p.fwd_curves.lookup a with
  | none => .error (.lookupError "asset")
  | some c => .ok c

/-- Modelled from the spec: the closed set of asset identifiers this
snapshot can answer queries about. -/
def supported_assets (p : ProcessedMarketData) : List String :=
  p.spots.map Prod.fst

end ProcessedMarketData

/-- The query alphabet of a `ProcessedMarketData` snapshot: one
constructor per read operation of the interface. -/
inductive PMDQuery where
  | qYieldCurve (ct : Nat)
  | qFixings (d : Nat) (ft : String) (tn : Nat)
  | qSpot (a : String) (d : Nat)
  | qVolSurface (a : String)
  | qForwardCurve (a : String)
  | qSupportedCurrencies
  | qSupportedAssets
  | qDtype
  | qDate
  | qTime

/-- Results a snapshot query can produce. -/
inductive PMDAnswer where
  | ansCurve (r : Except MarketDataError RateCurve)
  | ansVal (r : Except MarketDataError ℚ)
  | ansStrs (l : List String)
  | ansNat (n : Nat)

/-- Modelled from the spec: running one query against the snapshot, with
the post-state made explicit so that (im)mutability is a provable
statement rather than a convention. -/
def runQuery (p : ProcessedMarketData) :
    PMDQuery → PMDAnswer × ProcessedMarketData
  | .qYieldCurve ct => (.ansCurve (p.yield_curve ct), p)
  | .qFixings d ft tn => (.ansVal (p.fixings d ft tn), p)
  | .qSpot a d => (.ansVal (p.spot a d), p)
  | .qVolSurface a => (.ansVal (p.volatility_surface a), p)
  | .qForwardCurve a => (.ansCurve (p.forward_curve a), p)
  | .qSupportedCurrencies => (.ansStrs p.supported_currencies, p)
  | .qSupportedAssets => (.ansStrs p.supported_assets, p)
  | .qDtype => (.ansNat p.dtype_tag, p)
  | .qDate => (.ansNat p.pmd_date, p)
  | .qTime => (.ansNat p.pmd_time, p)

/-- The snapshot state after a sequence of queries. -/
def runQueries (p : ProcessedMarketData) (qs : List PMDQuery) :
    ProcessedMarketData :=
  qs.foldl (fun s q => (runQuery s q).2) p

/-- C3: a snapshot is immutable — every single query leaves the state
unchanged, any sequence of queries leaves the state unchanged, and in
particular the date and time read after any sequence of queries are the
construction-time values. -/
theorem processed_market_data_immutable (p : ProcessedMarketData)
    (qs : List PMDQuery) :
    (∀ q, (runQuery p q).2 = p) ∧ runQueries p qs = p ∧
    (runQueries p qs).pmd_date = p.pmd_date ∧
    (runQueries p qs).pmd_time = p.pmd_time := by
  have hq : ∀ (s : ProcessedMarketData) (q : PMDQuery), (runQuery s q).2 = s := by
    intro s q
    cases q <;> rfl
  have hqs : ∀ (qs : List PMDQuery) (s : ProcessedMarketData),
      runQueries s qs = s := by
    intro l
    induction l with
    | nil => intro s; rfl
    | cons q t ih =>
        intro s
        show runQueries ((runQuery s q).2) t = s
        rw [hq s q, ih s]
  exact ⟨hq p, hqs qs p, by rw [hqs qs p], by rw [hqs qs p]⟩

/-- Association-list lookup misses every key absent from the key list. -/
theorem lookup_eq_none_of_not_mem_keys {α β : Type} [BEq α] [LawfulBEq α]
    (l : List (α × β)) (a : α) (h : a ∉ l.map Prod.fst) :
    l.lookup a = none := by
  induction l with
  | nil => rfl
  | cons kv t ih =>
      have hne : a ≠ kv.1 := by
        intro he
        exact h (by simp [he])
      have ht : a ∉ t.map Prod.fst := by
        intro hm
        exact h (by simp [hm])
      simp [List.lookup, beq_eq_false_iff_ne.mpr hne, ih ht]

/-- C5: `fixings` fails with a temporal error whenever the requested date
is strictly after the snapshot's valuation date, and with a lookup error
when the date is admissible but the fixing series is unknown. -/
theorem fixings_contract (p : ProcessedMarketData) (d : Nat) (ft : String)
    (tn : Nat) :
    (p.pmd_date < d → p.fixings d ft tn = .error .temporalError) ∧
    (d ≤ p.pmd_date → (ft, tn) ∉ p.fixing_series.map Prod.fst →
      p.fixings d ft tn = .error (.lookupError "fixing_type")) := by
  constructor
  · intro h
    simp [ProcessedMarketData.fixings, h]
  · intro hd hm
    have hlt : ¬ p.pmd_date < d := Nat.not_lt.mpr hd
    simp [ProcessedMarketData.fixings, hlt,
      lookup_eq_none_of_not_mem_keys _ _ hm]

/-- C6: `spot` on an asset outside `supported_assets` fails with a lookup
error, and `yield_curve` on an unconfigured curve type fails with a lookup
error. -/
theorem unknown_identifier_lookup_fails (p : ProcessedMarketData)
    (a : String) (d : Nat) (ct : Nat) :
    (a ∉ p.supported_assets → p.spot a d = .error (.lookupError "asset")) ∧
    (ct ∉ p.curves.map Prod.fst →
      p.yield_curve ct = .error (.lookupError "curve_type")) := by
  constructor
  · intro h
    simp [ProcessedMarketData.spot,
      lookup_eq_none_of_not_mem_keys _ _ h]
  · intro h
    simp [ProcessedMarketData.yield_curve,
      lookup_eq_none_of_not_mem_keys _ _ h]

/-- A concrete snapshot used by witnesses, following the spec's section-8
scenario: valuation date day 10, one discount curve registered under
curve-type tag 1, USD the only supported asset, one LIBOR-3M fixing
series observed on day 5. -/
def samplePMD : ProcessedMarketData :=
  { pmd_date := 10
    pmd_time := 930
    curves := [(1, sampleCurve)]
    spots := [("USD", [(10, 1)])]
    vol_surfaces := [("USD", 1/5)]
    fwd_curves := [("USD", sampleCurve)]
    fixing_series := [(("LIBOR", 3), [(5, 1/100)])]
    supported_currencies := ["USD"]
    dtype_tag := 64 }

/-- Witness for C5: a fixing requested one day after the valuation date
fails temporally; an unknown series at an admissible date fails by
lookup. -/
theorem fixings_contract_witness :
    samplePMD.fixings 11 "LIBOR" 3 = .error .temporalError ∧
    samplePMD.fixings 5 "EURIBOR" 3 = .error (.lookupError "fixing_type") :=
  ⟨(fixings_contract samplePMD 11 "LIBOR" 3).1 (by decide),
   (fixings_contract samplePMD 5 "EURIBOR" 3).2 (by decide) (by decide)⟩

/-- Witness for C6: the spec's scenario — spot of the unsupported asset
EUR fails by lookup, as does an unconfigured curve type. -/
theorem unknown_identifier_lookup_fails_witness :
    samplePMD.spot "EUR" 10 = .error (.lookupError "asset") ∧
    samplePMD.yield_curve 2 = .error (.lookupError "curve_type") :=
  ⟨(unknown_identifier_lookup_fails samplePMD "EUR" 10 2).1 (by decide),
   (unknown_identifier_lookup_fails samplePMD "EUR" 10 2).2 (by decide)⟩

/-- The curve's interpolation-scheme identifier. -/
def RateCurve.interpolation_method (c : RateCurve) : Nat :=
  c.interp_tag

/-- The curve's day-count convention tag. -/
def RateCurve.daycount_convention (c : RateCurve) : Nat :=
  c.daycount_tag

/-- The query alphabet of a `RateCurve`: one constructor per read
operation of the interface. -/
inductive RCQuery where
  | rqDiscountFactor (d : Nat)
  | rqForwardRate (d1 d2 : Nat)
  | rqDiscountRate (d : Nat)
  | rqCurveType
  | rqInterpolationMethod
  | rqDiscountFactorsAndDates
  | rqDiscountFactorNodes
  | rqDiscountRateNodes
  | rqNodeDates
  | rqDaycountConvention
  | rqYearFraction (d1 d2 : Nat)

/-- Results a curve query can produce. -/
inductive RCAnswer where
  | rcExc (r : Except MarketDataError ℚ)
  | rcNat (n : Nat)
  | rcVal (v : ℚ)
  | rcVals (l : List ℚ)
  | rcDates (l : List Nat)
  | rcPair (p : List ℚ × List Nat)

/-- Modelled from the spec: running one read operation against a curve,
with the post-state explicit, so that "mutation is confined to
`set_discount_factor_nodes`" is a provable statement. -/
def runRCQuery (c : RateCurve) : RCQuery → RCAnswer × RateCurve
  | .rqDiscountFactor d => (.rcExc (c.discount_factor d), c)
  | .rqForwardRate d1 d2 => (.rcExc (c.forward_rate d1 d2), c)
  | .rqDiscountRate d => (.rcExc (c.discount_rate d), c)
  | .rqCurveType => (.rcNat c.curve_type, c)
  | .rqInterpolationMethod => (.rcNat c.interpolation_method, c)
  | .rqDiscountFactorsAndDates => (.rcPair c.discount_factors_and_dates, c)
  | .rqDiscountFactorNodes => (.rcVals c.discount_factor_nodes, c)
  | .rqDiscountRateNodes => (.rcVals c.discount_rate_nodes, c)
  | .rqNodeDates => (.rcDates c.node_dates, c)
  | .rqDaycountConvention => (.rcNat c.daycount_convention, c)
  | .rqYearFraction d1 d2 => (.rcVal (c.daycount_fn d1 d2), c)

/-- C8: every read operation leaves the curve unchanged, and a successful
`set_discount_factor_nodes` changes only the node values: the node dates,
the curve-type tag and every other field are preserved, and the updated
node array keeps the `node_dates` length. -/
theorem set_discount_factor_nodes_frame (c : RateCurve) (v : List ℚ)
    (c2 : RateCurve) (out : List ℚ)
    (h : c.set_discount_factor_nodes v = .ok (c2, out)) :
    c2.node_dates = c.node_dates ∧
    c2.curve_type = c.curve_type ∧
    c2.valuation_date = c.valuation_date ∧
    c2.daycount_tag = c.daycount_tag ∧
    c2.interp_tag = c.interp_tag ∧
    c2.dc_basis = c.dc_basis ∧
    c2.discount_factor_nodes.length = c.node_dates.length ∧
    (∀ q, (runRCQuery c q).2 = c) := by
  unfold RateCurve.set_discount_factor_nodes at h
  by_cases hlen : v.length = c.node_dates.length
  · rw [if_pos hlen] at h
    simp only [Except.ok.injEq, Prod.mk.injEq] at h
    obtain ⟨hc2, hout⟩ := h
    subst hc2
    refine ⟨rfl, rfl, rfl, rfl, rfl, rfl, hlen, ?_⟩
    intro q
    cases q <;> rfl
  · rw [if_neg hlen] at h
    simp at h

/-- The scenario curve after a successful node update. -/
def updatedSampleCurve : RateCurve :=
  { sampleCurve with discount_factor_nodes := [1, 98/100, 96/100] }

/-- Witness for C8: the concrete node update of the scenario curve. -/
theorem set_discount_factor_nodes_frame_witness :
    updatedSampleCurve.node_dates = sampleCurve.node_dates ∧
    updatedSampleCurve.curve_type = sampleCurve.curve_type ∧
    updatedSampleCurve.valuation_date = sampleCurve.valuation_date ∧
    updatedSampleCurve.daycount_tag = sampleCurve.daycount_tag ∧
    updatedSampleCurve.interp_tag = sampleCurve.interp_tag ∧
    updatedSampleCurve.dc_basis = sampleCurve.dc_basis ∧
    updatedSampleCurve.discount_factor_nodes.length =
      sampleCurve.node_dates.length ∧
    (∀ q, (runRCQuery sampleCurve q).2 = sampleCurve) :=
  set_discount_factor_nodes_frame sampleCurve [1, 98/100, 96/100]
    updatedSampleCurve [1, 98/100, 96/100] rfl

/-- Modelled from the spec: elementwise (vectorized) evaluation of a
fallible scalar operation over a tensor of inputs; any elementwise failure
surfaces to the caller. -/
def mapE {α β : Type} (f : α → Except MarketDataError β) :
    List α → Except MarketDataError (List β)
  | [] => .ok []
  | a :: rest =>
    match f a with
    | .error e => .error e
    | .ok b =>
      match mapE f rest with
      | .error e => .error e
      | .ok bs => .ok (b :: bs)

/-- Modelled from the spec: the broadcast of two one-dimensional shapes
(equal lengths, or one side of length one stretched to the other). -/
def broadcastDim (n m : Nat) : Option Nat :=
  if n = m then some n
  else if n = 1 then some m
  else if m = 1 then some n
  else none

/-- Modelled from the spec: the elementwise pairing of two date tensors
after broadcasting, `none` when the shapes do not broadcast. -/
def broadcastPairs (xs ys : List Nat) : Option (List (Nat × Nat)) :=
  if xs.length = ys.length then some (xs.zip ys)
  else if xs.length = 1 then some (ys.map fun y => (xs.headD 0, y))
  else if ys.length = 1 then some (xs.map fun x => (x, ys.headD 0))
  else none

/-- Modelled from the spec: `discount_factor` on a tensor of dates,
evaluated elementwise. -/
def RateCurve.discount_factor_tensor (c : RateCurve) (dates : List Nat) :
    Except MarketDataError (List ℚ) :=
  mapE c.discount_factor dates

/-- Modelled from the spec: `forward_rate` on tensors of start and end
dates; the end-date shape must broadcast against the start-date shape,
otherwise the call fails with a validation error naming the offending
argument. -/
def RateCurve.forward_rate_tensor (c : RateCurve) (starts ends : List Nat) :
    Except MarketDataError (List ℚ) :=
  match broadcastPairs starts ends with
  | none => .error (.validationError "end_date")
  | some ps => mapE (fun q => c.forward_rate q.1 q.2) ps

/-- A successful elementwise evaluation preserves the tensor length. -/
theorem mapE_ok_length {α β : Type} (f : α → Except MarketDataError β) :
    ∀ (l : List α) (r : List β), mapE f l = .ok r → r.length = l.length := by
  intro l
  induction l with
  | nil =>
      intro r h
      simp only [mapE, Except.ok.injEq] at h
      subst h
      rfl
  | cons a t ih =>
      intro r h
      unfold mapE at h
      cases hfa : f a with
      | error e => simp [hfa] at h
      | ok b =>
          cases hmt : mapE f t with
          | error e => simp [hfa, hmt] at h
          | ok bs =>
              simp only [hfa, hmt, Except.ok.injEq] at h
              subst h
              simp [ih bs hmt]

/-- Broadcasting two shapes fails exactly when `broadcastDim` says so, and
otherwise produces the broadcast number of elementwise pairs. -/
theorem broadcastPairs_shape (xs ys : List Nat) :
    (broadcastDim xs.length ys.length = none → broadcastPairs xs ys = none) ∧
    (∀ n ps, broadcastDim xs.length ys.length = some n →
      broadcastPairs xs ys = some ps → ps.length = n) := by
  unfold broadcastDim broadcastPairs
  by_cases h1 : xs.length = ys.length
  · rw [if_pos h1, if_pos h1]
    refine ⟨fun h => Option.noConfusion h, ?_⟩
    intro n ps hn hps
    injection hn with hn
    injection hps with hps
    rw [← hps, ← hn, List.length_zip, h1, Nat.min_self]
  · by_cases h2 : xs.length = 1
    · rw [if_neg h1, if_neg h1, if_pos h2, if_pos h2]
      refine ⟨fun h => Option.noConfusion h, ?_⟩
      intro n ps hn hps
      injection hn with hn
      injection hps with hps
      rw [← hps, ← hn, List.length_map]
    · by_cases h3 : ys.length = 1
      · rw [if_neg h1, if_neg h1, if_neg h2, if_neg h2, if_pos h3, if_pos h3]
        refine ⟨fun h => Option.noConfusion h, ?_⟩
        intro n ps hn hps
        injection hn with hn
        injection hps with hps
        rw [← hps, ← hn, List.length_map]
      · rw [if_neg h1, if_neg h1, if_neg h2, if_neg h2, if_neg h3, if_neg h3]
        exact ⟨fun _ => rfl, fun n ps hn => Option.noConfusion hn⟩

/-- C9: `discount_factor` on a date tensor returns a tensor of the same
shape; `forward_rate` on start/end tensors requires the end-date shape to
broadcast against the start-date shape — failing with a validation error
otherwise — and returns a tensor of the broadcast shape. -/
theorem tensor_shape_contract (c : RateCurve) (dates starts ends : List Nat) :
    (∀ res, c.discount_factor_tensor dates = .ok res →
      res.length = dates.length) ∧
    (broadcastDim starts.length ends.length = none →
      c.forward_rate_tensor starts ends = .error (.validationError "end_date")) ∧
    (∀ n res, broadcastDim starts.length ends.length = some n →
      c.forward_rate_tensor starts ends = .ok res → res.length = n) := by
  refine ⟨?_, ?_, ?_⟩
  · intro res h
    exact mapE_ok_length c.discount_factor dates res h
  · intro h
    unfold RateCurve.forward_rate_tensor
    rw [(broadcastPairs_shape starts ends).1 h]
  · intro n res hn hres
    unfold RateCurve.forward_rate_tensor at hres
    cases hps : broadcastPairs starts ends with
    | none => rw [hps] at hres; simp at hres
    | some ps =>
        rw [hps] at hres
        have hlen := mapE_ok_length _ ps res hres
        rw [hlen]
        exact (broadcastPairs_shape starts ends).2 n ps hn hps

/-- Witness for C9: concrete tensor evaluations on the scenario curve —
an elementwise discount-factor tensor of matching shape, a broadcast
failure for incompatible shapes, and a broadcast forward-rate tensor. -/
theorem tensor_shape_contract_witness :
    ([1, 999/1000] : List ℚ).length = ([0, 151] : List Nat).length ∧
    sampleCurve.forward_rate_tensor [1, 2] [3, 4, 5] =
      .error (.validationError "end_date") ∧
    ([365/150849, 1/199] : List ℚ).length = 2 :=
  ⟨(tensor_shape_contract sampleCurve [0, 151] [1, 2] [3, 4, 5]).1
      [1, 999/1000]
      (by norm_num [RateCurve.discount_factor_tensor, mapE,
        RateCurve.discount_factor, RateCurve.interpSegments, sampleCurve]),
   (tensor_shape_contract sampleCurve [0, 151] [1, 2] [3, 4, 5]).2.1
      (by decide),
   (tensor_shape_contract sampleCurve [] [0] [151, 365]).2.2
      2 [365/150849, 1/199] (by decide)
      (by norm_num [RateCurve.forward_rate_tensor, broadcastPairs, mapE,
        RateCurve.forward_rate, RateCurve.discount_factor,
        RateCurve.interpSegments, sampleCurve])⟩

/-- An abstract base class: its name and the names of its abstract
members, as declared in the source file. -/
structure PyAbstractClass where
  className : String
  abstract_members : List String

/-- The `RateCurve` abstract base class of the source: all twelve members
are declared abstract. -/
def rateCurveABC : PyAbstractClass :=
  { className := "RateCurve"
    abstract_members :=
      ["discount_factor", "forward_rate", "discount_rate", "curve_type",
       "interpolation_method", "discount_factors_and_dates",
       "discount_factor_nodes", "set_discount_factor_nodes",
       "discount_rate_nodes", "node_dates", "daycount_convention",
       "daycount_fn"] }

/-- The `ProcessedMarketData` abstract base class of the source: all ten
members are declared abstract. -/
def processedMarketDataABC : PyAbstractClass :=
  { className := "ProcessedMarketData"
    abstract_members :=
      ["date", "time", "yield_curve", "fixings", "spot",
       "volatility_surface", "forward_curve", "supported_currencies",
       "supported_assets", "dtype"] }

/-- A concrete type deriving from an abstract base class, with the set of
abstract members it actually overrides. -/
structure PySubclass where
  base : PyAbstractClass
  overridden : List String

/-- Modelled from the spec: a concrete type can be instantiated only when
it overrides every abstract member of its base (the abstract base classes
themselves, which override nothing, cannot be instantiated directly). -/
def canInstantiate (t : PySubclass) : Bool :=
  t.base.abstract_members.all (fun m => t.overridden.contains m)

/-- Modelled from the spec: invoking a member on a non-conforming or
incomplete concrete type surfaces a not-implemented error immediately to
the caller — no silent default, no partial result. -/
def invokeAbstract (t : PySubclass) (m : String) :
    Except MarketDataError Unit :=
  if canInstantiate t then .ok ()
  else .error MarketDataError.notImplementedError

/-- C7: invoking any abstract member on a concrete type that leaves some
abstract member unimplemented fails with a not-implemented error, and
neither abstract base class can be instantiated directly. -/
theorem abstract_invocation_not_implemented (t : PySubclass) (m : String)
    (hm : m ∈ t.base.abstract_members) (hno : m ∉ t.overridden) :
    invokeAbstract t m = .error MarketDataError.notImplementedError ∧
    canInstantiate (PySubclass.mk rateCurveABC []) = false ∧
    canInstantiate (PySubclass.mk processedMarketDataABC []) = false := by
  have hfail : canInstantiate t = false := by
    by_contra hcc
    have hc : canInstantiate t = true := by
      cases h2 : canInstantiate t
      · exact absurd h2 hcc
      · rfl
    unfold canInstantiate at hc
    have hp := List.all_eq_true.mp hc m hm
    exact hno (by simpa using hp)
  refine ⟨?_, by decide, by decide⟩
  simp [invokeAbstract, hfail]

/-- Witness for C7: `discount_factor` invoked on a subclass of
`RateCurve` that overrides nothing. -/
theorem abstract_invocation_not_implemented_witness :
    invokeAbstract (PySubclass.mk rateCurveABC []) "discount_factor" =
      .error MarketDataError.notImplementedError ∧
    canInstantiate (PySubclass.mk rateCurveABC []) = false ∧
    canInstantiate (PySubclass.mk processedMarketDataABC []) = false :=
  abstract_invocation_not_implemented (PySubclass.mk rateCurveABC [])
    "discount_factor" (by decide) (by decide)

/-- What a base-class body does when actually executed (e.g. reached via
`super()` from a subclass). -/
inductive PyBody where
  | passBody
  | raiseNotImpl
  | returnSelfAttr (attr : String)
deriving DecidableEq, BEq, Repr

/-- Values a base-class body can produce when it does not raise. -/
inductive PyValue where
  | pyNone
  | pyAttr (v : Nat)
deriving DecidableEq, Repr

/-- The base-class bodies of `RateCurve` as written in the source: nine
members have a bare `pass` body, `node_dates` returns `self._dates`, and
`daycount_convention` and `daycount_fn` raise `NotImplementedError`. -/
def rateCurveBaseBodies : List (String × PyBody) :=
  [("discount_factor", .passBody), ("forward_rate", .passBody),
   ("discount_rate", .passBody), ("curve_type", .passBody),
   ("interpolation_method", .passBody),
   ("discount_factors_and_dates", .passBody),
   ("discount_factor_nodes", .passBody),
   ("set_discount_factor_nodes", .passBody),
   ("discount_rate_nodes", .passBody),
   ("node_dates", .returnSelfAttr "_dates"),
   ("daycount_convention", .raiseNotImpl),
   ("daycount_fn", .raiseNotImpl)]

/-- The base-class bodies of `ProcessedMarketData` as written in the
source: every member has a bare `pass` body. -/
def processedMarketDataBaseBodies : List (String × PyBody) :=
  [("date", .passBody), ("time", .passBody), ("yield_curve", .passBody),
   ("fixings", .passBody), ("spot", .passBody),
   ("volatility_surface", .passBody), ("forward_curve", .passBody),
   ("supported_currencies", .passBody), ("supported_assets", .passBody),
   ("dtype", .passBody)]

/-- Executing a base-class body against the instance's attribute
dictionary: `pass` silently returns `None`, `raise NotImplementedError`
fails, and `return self._dates` performs an attribute lookup that fails
with an attribute error when the attribute was never set. -/
def runBaseBody (attrs : List (String × Nat)) :
    PyBody → Except MarketDataError PyValue
  | .passBody => .ok .pyNone
  | .raiseNotImpl => .error MarketDataError.notImplementedError
  | .returnSelfAttr a =>
    match attrs.lookup a with
    | some v => .ok (.pyAttr v)
    | none => .error (.attributeError a)

/-- C10: the base-class bodies behave inconsistently — `daycount_convention`
and `daycount_fn` raise `NotImplementedError`; `node_dates` reads
`self._dates`, failing with an attribute error when no subclass ever set
it and returning it when set; and every other member of both classes
silently returns `None`. -/
theorem base_body_behaviour :
    rateCurveBaseBodies.lookup "daycount_convention" =
      some PyBody.raiseNotImpl ∧
    rateCurveBaseBodies.lookup "daycount_fn" = some PyBody.raiseNotImpl ∧
    runBaseBody [] PyBody.raiseNotImpl =
      .error MarketDataError.notImplementedError ∧
    rateCurveBaseBodies.lookup "node_dates" =
      some (PyBody.returnSelfAttr "_dates") ∧
    runBaseBody [] (PyBody.returnSelfAttr "_dates") =
      .error (MarketDataError.attributeError "_dates") ∧
    runBaseBody [("_dates", 7)] (PyBody.returnSelfAttr "_dates") =
      .ok (PyValue.pyAttr 7) ∧
    (rateCurveBaseBodies.filter (fun p => p.2 == PyBody.passBody)).map
        Prod.fst =
      ["discount_factor", "forward_rate", "discount_rate", "curve_type",
       "interpolation_method", "discount_factors_and_dates",
       "discount_factor_nodes", "set_discount_factor_nodes",
       "discount_rate_nodes"] ∧
    processedMarketDataBaseBodies.all (fun p => p.2 == PyBody.passBody) =
      true ∧
    runBaseBody [] PyBody.passBody = .ok PyValue.pyNone :=
  ⟨rfl, rfl, rfl, rfl, rfl, rfl, rfl, rfl, rfl⟩
